import Mathlib

/-!
Verification of the square-path walker of the `spot_starter_template`
repository (`square_movement.py`, `robot_connection.py`,
`square_path_example.py`).

Conventions of the embedding:
* Python floats are modelled as exact rationals (`ℚ`); all arithmetic the
  repository performs on them (addition, multiplication, division by the
  list length 5) is exact in this range.
* `math.atan2` is a call into the Python math library, external to the
  repository; it is passed in as an opaque function `atan2 : ℚ → ℚ → ℚ`.
* `vision_T_body.transform_point` is a call into the vendor SDK, external
  to the repository; it is passed in as an opaque planar map
  `transform_point : ℚ × ℚ → ℚ × ℚ` (the z coordinate, always 0 in the
  source, is dropped).
* SDK calls that can raise are modelled by `Except PyErr` valued
  parameters: the caller of the model supplies the outcome of each
  underlying call, and the model reproduces the repository's own control
  flow (try/except, fall-backs, early returns) around those outcomes.
-/

/-- Model of `geometry_pb2.SE2Pose`: planar position plus heading angle. -/
structure SE2Pose where
  x : ℚ
  y : ℚ
  angle : ℚ
deriving DecidableEq

/-- One entry of the `trajectory_points` list built by
`SquarePathWalker.walk_square` (square_movement.py lines 94-118): an SE2
pose together with the time offset `time_at_point` assigned to it. -/
structure TrajPoint where
  pose : SE2Pose
  time_at_point : ℚ
deriving DecidableEq

/-- Default `TrajPoint`, used only as the out-of-range default of `List.getD`. -/
def d0 : TrajPoint := ⟨⟨0, 0, 0⟩, 0⟩

/-- Model of `trajectory_pb2.SE2TrajectoryPoint` as built by
`SquarePathWalker.walk_square_trajectory` (square_movement.py lines
209-212): a pose plus `time_since_reference`. -/
structure SE2TrajectoryPoint where
  pose : SE2Pose
  time_since_reference : ℚ
deriving DecidableEq

/-- Default `SE2TrajectoryPoint`, used only as the default of `List.getD`. -/
def dp0 : SE2TrajectoryPoint := ⟨⟨0, 0, 0⟩, 0⟩

/-- square_movement.py lines 82-88 (and identically lines 179-185): the five
corners of the square in the body frame, starting and ending at the origin. -/
def square_points (side_length : ℚ) : List (ℚ × ℚ) :=
  [(0, 0), (side_length, 0), (side_length, side_length), (0, side_length), (0, 0)]

/-- square_movement.py lines 90-118, the waypoint loop of `walk_square`:
for each corner, transform it to the vision frame, give it the look-ahead
heading `atan2 dy dx` of the next segment (0 at the last index), and the
deadline `(idx + 1) * time_per_segment`. -/
def trajectory_points (atan2 : ℚ → ℚ → ℚ) (transform_point : ℚ × ℚ → ℚ × ℚ)
    (side_length total_time : ℚ) : List TrajPoint :=
  let pts := square_points side_length
  let time_per_segment := total_time / (pts.length : ℚ)
  (List.range pts.length).map (fun idx =>
    let p := pts.getD idx (0, 0)
    let pv := transform_point p
    let heading :=
      if idx < pts.length - 1 then
        let q := pts.getD (idx + 1) (0, 0)
        atan2 (q.2 - p.2) (q.1 - p.1)
      else 0
    { pose := { x := pv.1, y := pv.2, angle := heading },
      time_at_point := ((idx : ℚ) + 1) * time_per_segment })

/-- square_movement.py lines 187-213, the waypoint loop of
`walk_square_trajectory`: the same geometry as `trajectory_points`, packaged
as `SE2TrajectoryPoint`s with `time_since_reference`. -/
def traj_points (atan2 : ℚ → ℚ → ℚ) (transform_point : ℚ × ℚ → ℚ × ℚ)
    (side_length total_time : ℚ) : List SE2TrajectoryPoint :=
  let pts := square_points side_length
  let time_per_segment := total_time / (pts.length : ℚ)
  (List.range pts.length).map (fun idx =>
    let p := pts.getD idx (0, 0)
    let pv := transform_point p
    let heading :=
      if idx < pts.length - 1 then
        let q := pts.getD (idx + 1) (0, 0)
        atan2 (q.2 - p.2) (q.1 - p.1)
      else 0
    { pose := { x := pv.1, y := pv.2, angle := heading },
      time_since_reference := ((idx : ℚ) + 1) * time_per_segment })

/-- C1: for every side_length > 0, the square plan has exactly 5 waypoints,
whose body-frame positions (before the world transform) are
(0,0), (L,0), (L,L), (0,L), (0,0); the plan is closed: the first and last
positions coincide, both before and after applying the transform. -/
theorem C1_square_plan_closed (atan2 : ℚ → ℚ → ℚ) (T : ℚ × ℚ → ℚ × ℚ)
    (L t : ℚ) (hL : 0 < L) :
    (trajectory_points atan2 T L t).length = 5 ∧
    square_points L = [(0, 0), (L, 0), (L, L), (0, L), (0, 0)] ∧
    (square_points L).getD 0 (0, 0) = (square_points L).getD 4 (0, 0) ∧
    ((trajectory_points atan2 T L t).getD 0 d0).pose.x =
      ((trajectory_points atan2 T L t).getD 4 d0).pose.x ∧
    ((trajectory_points atan2 T L t).getD 0 d0).pose.y =
      ((trajectory_points atan2 T L t).getD 4 d0).pose.y :=
  ⟨rfl, rfl, rfl, rfl, rfl⟩

/-- Witness for C1 at side_length 1, total_time 20, identity transform. -/
theorem C1_square_plan_closed_witness :
    (0 : ℚ) < 1 ∧
    (trajectory_points (fun _ _ => 0) (fun p => p) 1 20).length = 5 :=
  ⟨by norm_num, (C1_square_plan_closed (fun _ _ => 0) (fun p => p) 1 20 (by norm_num)).1⟩

/-- C2: for every side_length > 0, the heading the plan assigns at each index
i in 0..3 is atan2 dy dx of the body-frame vector from corner i to corner
i+1 (look-ahead heading), and the heading at index 4 is exactly 0. -/
theorem C2_lookahead_headings (atan2 : ℚ → ℚ → ℚ) (T : ℚ × ℚ → ℚ × ℚ)
    (L t : ℚ) (hL : 0 < L) :
    (∀ i : Fin 4,
      ((trajectory_points atan2 T L t).getD (i : ℕ) d0).pose.angle =
        atan2
          (((square_points L).getD ((i : ℕ) + 1) (0, 0)).2 -
            ((square_points L).getD (i : ℕ) (0, 0)).2)
          (((square_points L).getD ((i : ℕ) + 1) (0, 0)).1 -
            ((square_points L).getD (i : ℕ) (0, 0)).1)) ∧
    ((trajectory_points atan2 T L t).getD 4 d0).pose.angle = 0 := by
  refine ⟨fun i => ?_, rfl⟩
  fin_cases i <;> rfl

/-- Witness for C2 at side_length 1: heading at index 4 evaluates to 0. -/
theorem C2_lookahead_headings_witness :
    (0 : ℚ) < 1 ∧
    ((trajectory_points (fun _ _ => 0) (fun p => p) 1 20).getD 4 d0).pose.angle = 0 :=
  ⟨by norm_num,
    (C2_lookahead_headings (fun _ _ => 0) (fun p => p) 1 20 (by norm_num)).2⟩

/-- Counterexample to C3 as stated: the claim quantifies over every
total_time, but at total_time = 0 all five deadlines are 0, so they are not
strictly increasing. -/
theorem C3_counterexample :
    ¬ List.Chain' (· < ·)
      ((trajectory_points (fun _ _ => 0) (fun p => p) 1 0).map
        (fun p => p.time_at_point)) := by
  simp only [trajectory_points, square_points]
  norm_num [List.range_succ, List.chain'_cons]

/-- C3 amended: for every total_time, the deadline at index i is
(i + 1) * total_time / 5 and the last deadline equals total_time; when
total_time > 0 (which the minimal counterexample at total_time = 0 forces
as a hypothesis) the five deadlines are strictly increasing; in the
scenario side_length = 1, total_time = 20 they are 4, 8, 12, 16, 20. -/
theorem C3_deadlines (atan2 : ℚ → ℚ → ℚ) (T : ℚ × ℚ → ℚ × ℚ) (L t : ℚ) :
    (∀ i : Fin 5,
      ((trajectory_points atan2 T L t).getD (i : ℕ) d0).time_at_point =
        ((i : ℕ) + 1) * t / 5) ∧
    ((trajectory_points atan2 T L t).getD 4 d0).time_at_point = t ∧
    (0 < t → List.Chain' (· < ·)
      ((trajectory_points atan2 T L t).map (fun p => p.time_at_point))) ∧
    (trajectory_points atan2 T 1 20).map (fun p => p.time_at_point) =
      [4, 8, 12, 16, 20] := by
  refine ⟨fun i => ?_, ?_, fun ht => ?_, ?_⟩
  · fin_cases i <;>
      simp [trajectory_points, square_points] <;> ring
  · show (4 + 1) * (t / (5 : ℚ)) = t
    ring_nf
  · have hc : 0 < t / (5 : ℚ) := by positivity
    simp only [trajectory_points, square_points]
    norm_num [List.range_succ, List.chain'_cons]
    refine ⟨by linarith, by linarith, by linarith, by linarith⟩
  · simp only [trajectory_points, square_points]
    norm_num [List.range_succ]

/-- Witness for C3 amended, at total_time 20: strictly increasing deadlines. -/
theorem C3_deadlines_witness :
    List.Chain' (· < ·)
      ((trajectory_points (fun _ _ => 0) (fun p => p) 1 20).map
        (fun p => p.time_at_point)) :=
  (C3_deadlines (fun _ _ => 0) (fun p => p) 1 20).2.2.1 (by norm_num)

/-- Model of one call to `RobotCommandBuilder.synchro_se2_trajectory_point_command`
plus `robot_command(cmd, end_time_secs=time.time() + time_val)` as issued by
`walk_square` (square_movement.py lines 129-141): the goal pose fields of
the command and its absolute end time. -/
structure PointCommand where
  goal_x : ℚ
  goal_y : ℚ
  goal_heading : ℚ
  end_time_secs : ℚ
deriving DecidableEq

/-- square_movement.py lines 122-143, the submission loop of `walk_square`:
one `PointCommand` per trajectory point, in order. `clock idx` is the value
`time.time()` returns at iteration idx. -/
def walk_square_commands (atan2 : ℚ → ℚ → ℚ) (T : ℚ × ℚ → ℚ × ℚ)
    (side_length total_time : ℚ) (clock : ℕ → ℚ) : List PointCommand :=
  (trajectory_points atan2 T side_length total_time).enum.map (fun e =>
    { goal_x := e.2.pose.x, goal_y := e.2.pose.y, goal_heading := e.2.pose.angle,
      end_time_secs := clock e.1 + e.2.time_at_point })

/-- Model of `trajectory_pb2.SE2Trajectory` (square_movement.py line 216). -/
structure SE2Trajectory where
  points : List SE2TrajectoryPoint
deriving DecidableEq

/-- square_movement.py line 216: the trajectory built (but, beyond its last
point, not submitted) by `walk_square_trajectory`. -/
def walk_square_se2_trajectory (atan2 : ℚ → ℚ → ℚ) (T : ℚ × ℚ → ℚ × ℚ)
    (side_length total_time : ℚ) : SE2Trajectory :=
  ⟨traj_points atan2 T side_length total_time⟩

/-- Model of the single call to
`RobotCommandBuilder.synchro_se2_trajectory_command(goal_se2=trajectory.points[-1].pose, ...)`
plus `robot_command(cmd, end_time_secs=time.time() + total_time)` issued by
`walk_square_trajectory` (square_movement.py lines 224-234): the one goal
pose the command carries and its absolute end time. -/
structure TrajectoryCommand where
  goal_se2 : SE2Pose
  end_time_secs : ℚ
deriving DecidableEq

/-- square_movement.py lines 224-234: the command `walk_square_trajectory`
actually submits, built from the last trajectory point's pose only. -/
def walk_square_trajectory_command (atan2 : ℚ → ℚ → ℚ) (T : ℚ × ℚ → ℚ × ℚ)
    (side_length total_time now : ℚ) : TrajectoryCommand :=
  { goal_se2 :=
      ((walk_square_se2_trajectory atan2 T side_length total_time).points.getLastD dp0).pose,
    end_time_secs := now + total_time }

/-- The sequence of (x, y, heading) goal triples `walk_square` submits. -/
def walk_square_submitted_goals (atan2 : ℚ → ℚ → ℚ) (T : ℚ × ℚ → ℚ × ℚ)
    (side_length total_time : ℚ) (clock : ℕ → ℚ) : List (ℚ × ℚ × ℚ) :=
  (walk_square_commands atan2 T side_length total_time clock).map
    (fun c => (c.goal_x, c.goal_y, c.goal_heading))

/-- The sequence of (x, y, heading) goal triples `walk_square_trajectory`
submits: the single goal pose of its one command. -/
def walk_square_trajectory_submitted_goals (atan2 : ℚ → ℚ → ℚ)
    (T : ℚ × ℚ → ℚ × ℚ) (side_length total_time now : ℚ) : List (ℚ × ℚ × ℚ) :=
  [((walk_square_trajectory_command atan2 T side_length total_time now).goal_se2.x,
    (walk_square_trajectory_command atan2 T side_length total_time now).goal_se2.y,
    (walk_square_trajectory_command atan2 T side_length total_time now).goal_se2.angle)]

/-- C9: the command `walk_square_trajectory` submits is built from only the
final trajectory point's pose: the constructed SE2Trajectory has 5 points,
the command's single goal pose is the pose at index 4, and the command is
unchanged by any modification (of the heading function, the transform, or
the side length) that preserves that final pose — the four intermediate
waypoints are never part of the submitted command. -/
theorem C9_command_from_final_point_only (a b : ℚ → ℚ → ℚ)
    (T U : ℚ × ℚ → ℚ × ℚ) (L M t now : ℚ)
    (h : ((traj_points a T L t).getD 4 dp0).pose =
      ((traj_points b U M t).getD 4 dp0).pose) :
    (walk_square_se2_trajectory a T L t).points.length = 5 ∧
    (walk_square_trajectory_command a T L t now).goal_se2 =
      ((walk_square_se2_trajectory a T L t).points.getD 4 dp0).pose ∧
    walk_square_trajectory_command a T L t now =
      walk_square_trajectory_command b U M t now := by
  refine ⟨rfl, rfl, ?_⟩
  show TrajectoryCommand.mk _ _ = TrajectoryCommand.mk _ _
  exact congrArg (fun p => TrajectoryCommand.mk p (now + t)) h

/-- Witness for C9: changing the heading function from the constant-0 one to
addition leaves the final pose, hence the submitted command, unchanged. -/
theorem C9_command_from_final_point_only_witness :
    walk_square_trajectory_command (fun _ _ => 0) (fun p => p) 1 20 3 =
      walk_square_trajectory_command (fun y x => y + x) (fun p => p) 1 20 3 :=
  (C9_command_from_final_point_only (fun _ _ => 0) (fun y x => y + x)
    (fun p => p) (fun p => p) 1 1 20 3 rfl).2.2

/-- C5, evaluated at the failing input side_length 1, total_time 20: the two
strategies compute identical waypoint geometry (first conjunct, for all
inputs), but the sequences of goal triples they submit differ —
`walk_square` submits all five waypoints, `walk_square_trajectory` submits
a single command carrying only the final waypoint's pose, contradicting
both the claim and the method's own docstring. -/
theorem C5_submitted_sequences_differ :
    (∀ (a : ℚ → ℚ → ℚ) (T : ℚ × ℚ → ℚ × ℚ) (L t : ℚ),
      (traj_points a T L t).map (fun p => (p.pose, p.time_since_reference)) =
        (trajectory_points a T L t).map (fun p => (p.pose, p.time_at_point))) ∧
    (walk_square_submitted_goals (fun _ _ => 0) (fun p => p) 1 20 (fun _ => 0)).length = 5 ∧
    (walk_square_trajectory_submitted_goals (fun _ _ => 0) (fun p => p) 1 20 0).length = 1 ∧
    walk_square_submitted_goals (fun _ _ => 0) (fun p => p) 1 20 (fun _ => 0) ≠
      walk_square_trajectory_submitted_goals (fun _ _ => 0) (fun p => p) 1 20 0 := by
  refine ⟨fun a T L t => rfl, rfl, rfl, ?_⟩
  decide

/-- C6: the plan computation is deterministic and pure — it is a function of
the current pose transform and the side_length and total_time inputs alone
(first conjunct), and in particular the geometry submitted by `walk_square`
is independent of the ambient clock state `time.time()` reads (second
conjunct). -/
theorem C6_plan_deterministic_pure (a : ℚ → ℚ → ℚ)
    (T₁ T₂ : ℚ × ℚ → ℚ × ℚ) (L₁ L₂ t₁ t₂ : ℚ) (clock₁ clock₂ : ℕ → ℚ) :
    (T₁ = T₂ → L₁ = L₂ → t₁ = t₂ →
      trajectory_points a T₁ L₁ t₁ = trajectory_points a T₂ L₂ t₂) ∧
    walk_square_submitted_goals a T₁ L₁ t₁ clock₁ =
      walk_square_submitted_goals a T₁ L₁ t₁ clock₂ := by
  refine ⟨?_, rfl⟩
  rintro rfl rfl rfl
  rfl

/-- Witness for C6 at concrete inputs: two runs with the same pose transform
and inputs but different clocks submit the same goal geometry. -/
theorem C6_plan_deterministic_pure_witness :
    trajectory_points (fun _ _ => 0) (fun p => p) 1 20 =
      trajectory_points (fun _ _ => 0) (fun p => p) 1 20 ∧
    walk_square_submitted_goals (fun _ _ => 0) (fun p => p) 1 20 (fun _ => 0) =
      walk_square_submitted_goals (fun _ _ => 0) (fun p => p) 1 20 (fun n => n + 7) :=
  ⟨(C6_plan_deterministic_pure (fun _ _ => 0) (fun p => p) (fun p => p) 1 1 20 20
      (fun _ => 0) (fun n => n + 7)).1 rfl rfl rfl,
   (C6_plan_deterministic_pure (fun _ _ => 0) (fun p => p) (fun p => p) 1 1 20 20
      (fun _ => 0) (fun n => n + 7)).2⟩

/-- A Python exception value raised by an underlying SDK call, carried
opaquely by its message. -/
structure PyErr where
  msg : String
deriving DecidableEq

/-- Outcome of the inner `self.robot.authenticate(username, password)` call
(robot_connection.py line 83): success, the `InvalidLoginError` the code
catches specially, or any other exception. -/
inductive AuthOutcome where
  | ok
  | invalid_login
  | other (e : PyErr)
deriving DecidableEq

/-- robot_connection.py lines 49-66, `SpotRobotConnection.connect`: two SDK
calls (`create_standard_sdk`, `sdk.create_robot`) inside try/except; any
exception yields False. -/
def connect (create_sdk : Except PyErr Unit) (create_robot : Except PyErr Unit) : Bool :=
  match create_sdk with
  | .error _ => false
  | .ok _ =>
    match create_robot with
    | .error _ => false
    | .ok _ => true

/-- robot_connection.py lines 68-93, `SpotRobotConnection.authenticate`: the
primary call's `InvalidLoginError` falls back to the interactive
`bosdyn.client.util.authenticate`; any other exception, from either call,
is caught by the outer try/except and yields False. -/
def authenticate (primary : AuthOutcome) (interactive : Except PyErr Unit) : Bool :=
  match primary with
  | .ok => true
  | .invalid_login =>
    match interactive with
    | .ok _ => true
    | .error _ => false
  | .other _ => false

/-- robot_connection.py lines 95-118, `SpotRobotConnection.setup_clients`:
four `ensure_client` calls inside try/except; any exception yields False. -/
def setup_clients (lease_c command_c state_c power_c : Except PyErr Unit) : Bool :=
  match lease_c with
  | .error _ => false
  | .ok _ =>
    match command_c with
    | .error _ => false
    | .ok _ =>
      match state_c with
      | .error _ => false
      | .ok _ =>
        match power_c with
        | .error _ => false
        | .ok _ => true

/-- robot_connection.py lines 120-134, `SpotRobotConnection.acquire_lease`:
the `LeaseKeepAlive` constructor inside try/except. -/
def acquire_lease (keepalive : Except PyErr Unit) : Bool :=
  match keepalive with
  | .error _ => false
  | .ok _ => true

/-- robot_connection.py lines 154-170, `SpotRobotConnection.power_on`. -/
def power_on (sdk_power_on : Except PyErr Unit) : Bool :=
  match sdk_power_on with
  | .error _ => false
  | .ok _ => true

/-- robot_connection.py lines 172-185, `SpotRobotConnection.time_sync`. -/
def time_sync (wait_for_sync : Except PyErr Unit) : Bool :=
  match wait_for_sync with
  | .error _ => false
  | .ok _ => true

/-- square_movement.py lines 37-53, `SquarePathWalker.stand_up`:
`blocking_stand` inside try/except. -/
def stand_up (blocking_stand : Except PyErr Unit) : Bool :=
  match blocking_stand with
  | .error _ => false
  | .ok _ => true

/-- robot_connection.py lines 143-152, `SpotRobotConnection.verify_not_estopped`:
no try/except — an exception from `self.robot.is_estopped()` propagates;
otherwise returns the negation of the estop flag. -/
def verify_not_estopped (is_estopped : Except PyErr Bool) : Except PyErr Bool :=
  match is_estopped with
  | .error e => .error e
  | .ok b => .ok (!b)

/-- The mutable connection state `disconnect` acts on: whether
`self.lease_keepalive` is set, and whether `self.robot` is set. -/
structure ConnState where
  lease_keepalive : Bool
  robot : Bool
deriving DecidableEq

/-- Observable SDK side effects of the teardown path. -/
inductive CleanupEvent where
  | lease_exit
  | robot_shutdown
deriving DecidableEq

/-- robot_connection.py lines 136-141, `SpotRobotConnection.release_lease`:
if a keepalive is held, call its `__exit__` (which may raise — no guard)
and set the field to None; otherwise do nothing. -/
def release_lease (st : ConnState) (exit_call : Except PyErr Unit) :
    Except PyErr (ConnState × List CleanupEvent) :=
  if st.lease_keepalive then
    match exit_call with
    | .error e => .error e
    | .ok _ => .ok ({ st with lease_keepalive := false }, [.lease_exit])
  else
    .ok (st, [])

/-- robot_connection.py lines 187-193, `SpotRobotConnection.disconnect`:
release the lease, then shut the robot handle down when one exists; neither
call is guarded, so an exception from either propagates. -/
def disconnect (st : ConnState) (exit_call shutdown_call : Except PyErr Unit) :
    Except PyErr (ConnState × List CleanupEvent) :=
  match release_lease st exit_call with
  | .error e => .error e
  | .ok (st1, ev1) =>
    if st1.robot then
      match shutdown_call with
      | .error e => .error e
      | .ok _ => .ok (st1, ev1 ++ [.robot_shutdown])
    else
      .ok (st1, ev1)

/-- square_movement.py lines 55-155, `SquarePathWalker.walk_square` as a
boolean operation: `get_robot_state` (whose outcome carries the pose
transform on success), the five submissions, and the final blocking wait
all sit inside one try/except, so any exception from any of them yields
False; otherwise True. `submit` gives the outcome of `robot_command` on
each built command. -/
def walk_square_result (get_state : Except PyErr (ℚ × ℚ → ℚ × ℚ))
    (submit : PointCommand → Except PyErr Nat) (block : Except PyErr Unit)
    (atan2 : ℚ → ℚ → ℚ) (side_length total_time : ℚ) (clock : ℕ → ℚ) : Bool :=
  match get_state with
  | .error _ => false
  | .ok T =>
    if (walk_square_commands atan2 T side_length total_time clock).all
        (fun c => match submit c with | .ok _ => true | .error _ => false) then
      match block with
      | .error _ => false
      | .ok _ => true
    else
      false

/-- square_movement.py lines 157-244, `SquarePathWalker.walk_square_trajectory`
as a boolean operation: `get_robot_state`, the single submission, and the
blocking wait inside one try/except; any exception yields False. -/
def walk_square_trajectory_result (get_state : Except PyErr (ℚ × ℚ → ℚ × ℚ))
    (submit : TrajectoryCommand → Except PyErr Nat) (block : Except PyErr Unit)
    (atan2 : ℚ → ℚ → ℚ) (side_length total_time now : ℚ) : Bool :=
  match get_state with
  | .error _ => false
  | .ok T =>
    match submit (walk_square_trajectory_command atan2 T side_length total_time now) with
    | .error _ => false
    | .ok _ =>
      match block with
      | .error _ => false
      | .ok _ => true

/-- The boolean outcome of each step of `square_path_example.main`, plus
whether a `KeyboardInterrupt` or an unexpected exception strikes during
the try block (steps 5-8). -/
structure StepOutcomes where
  connect_ok : Bool
  authenticate_ok : Bool
  setup_clients_ok : Bool
  acquire_lease_ok : Bool
  interrupted : Bool
  unexpected : Bool
  not_estopped : Bool
  power_on_ok : Bool
  time_sync_ok : Bool
  stand_up_ok : Bool
  walk_square_ok : Bool
deriving DecidableEq

/-- Result of one run of `main`: the returned exit code and how many times
`robot_conn.disconnect()` was invoked. -/
structure RunResult where
  exit_code : ℕ
  disconnect_calls : ℕ
deriving DecidableEq

/-- square_path_example.py lines 23-111, `main`: the four connection steps
return 1 on failure before the try/finally is entered (no disconnect); once
the try block is entered, every exit path — step failure, KeyboardInterrupt,
unexpected exception, or success — runs the finally block, which calls
`disconnect` exactly once. -/
def main_run (s : StepOutcomes) : RunResult :=
  if !s.connect_ok then ⟨1, 0⟩
  else if !s.authenticate_ok then ⟨1, 0⟩
  else if !s.setup_clients_ok then ⟨1, 0⟩
  else if !s.acquire_lease_ok then ⟨1, 0⟩
  else if s.interrupted then ⟨1, 1⟩
  else if s.unexpected then ⟨1, 1⟩
  else if !s.not_estopped then ⟨1, 1⟩
  else if !s.power_on_ok then ⟨1, 1⟩
  else if !s.time_sync_ok then ⟨1, 1⟩
  else if !s.stand_up_ok then ⟨1, 1⟩
  else if !s.walk_square_ok then ⟨1, 1⟩
  else ⟨0, 1⟩

/-- square_path_example.py lines 159-176, the __main__ block: exit 1 when
side_length ≤ 0, exit 1 when velocity is outside (0, 2], otherwise exit
with the code `main` returns. -/
def cli_run (side_length velocity : ℚ) (s : StepOutcomes) : ℕ :=
  if side_length ≤ 0 then 1
  else if velocity ≤ 0 ∨ 2 < velocity then 1
  else (main_run s).exit_code

/-- Counterexample to C4: in the run where connect succeeds and
authenticate fails (all later step outcomes irrelevant, set to true), main
returns exit code 1 with zero disconnect calls — not the exactly-once the
claim requires: the try/finally that guarantees disconnect begins only
after lease acquisition. -/
theorem C4_counterexample :
    main_run ⟨true, false, true, true, false, false, true, true, true, true, true⟩ =
      ⟨1, 0⟩ ∧
    (main_run
      ⟨true, false, true, true, false, false, true, true, true, true, true⟩).disconnect_calls ≠ 1 := by
  exact ⟨rfl, by decide⟩

/-- C4 amended: when authentication fails, main exits with code 1 but never
invokes disconnect (so the amendment replaces exactly once by zero times;
no lease is held at that point, since acquisition comes later); disconnect
is invoked exactly once on every run that passes the four connection steps,
regardless of where the later sequence aborts or whether it is
interrupted. -/
theorem C4_disconnect_coverage (s : StepOutcomes) :
    (s.connect_ok = true → s.authenticate_ok = false → main_run s = ⟨1, 0⟩) ∧
    (s.connect_ok = true → s.authenticate_ok = true → s.setup_clients_ok = true →
      s.acquire_lease_ok = true → (main_run s).disconnect_calls = 1) := by
  constructor
  · intro hc ha
    simp [main_run, hc, ha]
  · intro hc ha hs hl
    simp only [main_run, hc, ha, hs, hl, Bool.not_true, Bool.false_eq_true, if_false]
    split_ifs <;> rfl

/-- Witness for C4 amended: a concrete failing-authentication run and a
concrete interrupted run after lease acquisition. -/
theorem C4_disconnect_coverage_witness :
    main_run ⟨true, false, false, false, false, false, false, false, false, false, false⟩ =
      ⟨1, 0⟩ ∧
    (main_run
      ⟨true, true, true, true, true, false, true, true, true, true, true⟩).disconnect_calls = 1 :=
  ⟨(C4_disconnect_coverage
      ⟨true, false, false, false, false, false, false, false, false, false, false⟩).1 rfl rfl,
   (C4_disconnect_coverage
      ⟨true, true, true, true, true, false, true, true, true, true, true⟩).2 rfl rfl rfl rfl⟩

/-- Helper: `main` only ever returns 0 or 1. -/
theorem main_run_exit_mem (s : StepOutcomes) :
    (main_run s).exit_code = 0 ∨ (main_run s).exit_code = 1 := by
  rcases s with ⟨c, au, sc, al, ir, ux, ne, po, ts, su, ws⟩
  cases c
  · exact Or.inr rfl
  · cases au
    · exact Or.inr rfl
    · cases sc
      · exact Or.inr rfl
      · cases al
        · exact Or.inr rfl
        · cases ir
          · cases ux
            · cases ne
              · exact Or.inr rfl
              · cases po
                · exact Or.inr rfl
                · cases ts
                  · exact Or.inr rfl
                  · cases su
                    · exact Or.inr rfl
                    · cases ws
                      · exact Or.inr rfl
                      · exact Or.inl rfl
            · exact Or.inr rfl
          · exact Or.inr rfl

/-- Helper: `main` returns 0 exactly when every step succeeds and the run is
neither interrupted nor hit by an unexpected exception. -/
theorem main_run_exit_zero_iff (s : StepOutcomes) :
    (main_run s).exit_code = 0 ↔
      s.connect_ok = true ∧ s.authenticate_ok = true ∧
      s.setup_clients_ok = true ∧ s.acquire_lease_ok = true ∧
      s.interrupted = false ∧ s.unexpected = false ∧ s.not_estopped = true ∧
      s.power_on_ok = true ∧ s.time_sync_ok = true ∧ s.stand_up_ok = true ∧
      s.walk_square_ok = true := by
  rcases s with ⟨c, au, sc, al, ir, ux, ne, po, ts, su, ws⟩
  cases c
  · simp [main_run]
  · cases au
    · simp [main_run]
    · cases sc
      · simp [main_run]
      · cases al
        · simp [main_run]
        · cases ir
          · cases ux
            · cases ne
              · simp [main_run]
              · cases po
                · simp [main_run]
                · cases ts
                  · simp [main_run]
                  · cases su
                    · simp [main_run]
                    · cases ws
                      · simp [main_run]
                      · simp [main_run]
            · simp [main_run]
          · simp [main_run]

/-- C7: the CLI exits 1 when side_length ≤ 0, exits 1 when velocity lies
outside (0, 2], always exits 0 or 1, and exits 0 exactly when the inputs
validate and every step of the sequence succeeds with no interrupt and no
unexpected exception. -/
theorem C7_cli_exit_codes (L v : ℚ) (s : StepOutcomes) :
    (L ≤ 0 → cli_run L v s = 1) ∧
    (v ≤ 0 ∨ 2 < v → cli_run L v s = 1) ∧
    (cli_run L v s = 0 ∨ cli_run L v s = 1) ∧
    (cli_run L v s = 0 ↔
      0 < L ∧ 0 < v ∧ v ≤ 2 ∧ s.connect_ok = true ∧ s.authenticate_ok = true ∧
      s.setup_clients_ok = true ∧ s.acquire_lease_ok = true ∧
      s.interrupted = false ∧ s.unexpected = false ∧ s.not_estopped = true ∧
      s.power_on_ok = true ∧ s.time_sync_ok = true ∧ s.stand_up_ok = true ∧
      s.walk_square_ok = true) := by
  refine ⟨fun h => by simp [cli_run, h], fun h => ?_, ?_, ?_⟩
  · by_cases hL : L ≤ 0 <;> simp [cli_run, hL, h]
  · unfold cli_run
    by_cases h1 : L ≤ 0
    · rw [if_pos h1]
      exact Or.inr rfl
    · rw [if_neg h1]
      by_cases h2 : v ≤ 0 ∨ 2 < v
      · rw [if_pos h2]
        exact Or.inr rfl
      · rw [if_neg h2]
        exact main_run_exit_mem s
  · unfold cli_run
    by_cases hL : L ≤ 0
    · simp [hL, not_lt.mpr hL]
    · by_cases hv : v ≤ 0 ∨ 2 < v
      · have hv2 : ¬ (0 < v ∧ v ≤ 2) := by
          rcases hv with hv | hv
          · exact fun hc => absurd hc.1 (not_lt.mpr hv)
          · exact fun hc => absurd hc.2 (not_le.mpr hv)
        rw [if_neg hL, if_pos hv]
        constructor
        · intro h10
          exact absurd h10 one_ne_zero
        · rintro ⟨-, hv0, hv1, -⟩
          exact absurd ⟨hv0, hv1⟩ hv2
      · rw [if_neg hL, if_neg hv]
        push_neg at hL hv
        rw [main_run_exit_zero_iff]
        simp [hL, hv.1, hv.2]

/-- Witness for C7: a valid run exits 0; side_length 0 exits 1. -/
theorem C7_cli_exit_codes_witness :
    cli_run 1 (1 / 2) ⟨true, true, true, true, false, false, true, true, true, true, true⟩ = 0 ∧
    cli_run 0 (1 / 2) ⟨true, true, true, true, false, false, true, true, true, true, true⟩ = 1 :=
  ⟨(C7_cli_exit_codes 1 (1 / 2)
      ⟨true, true, true, true, false, false, true, true, true, true, true⟩).2.2.2.mpr
      ⟨by norm_num, by norm_num, by norm_num, rfl, rfl, rfl, rfl, rfl, rfl, rfl, rfl,
        rfl, rfl, rfl⟩,
   (C7_cli_exit_codes 0 (1 / 2)
      ⟨true, true, true, true, false, false, true, true, true, true, true⟩).1 (by norm_num)⟩

/-- C8: for every session state — whether or not a lease keepalive is held
and whether or not a robot handle exists — disconnect (with its underlying
SDK calls succeeding) releases the lease (the keepalive field becomes
None), preserves the robot handle, emits a shutdown call exactly when a
robot handle exists, and is idempotent: running it again from the resulting
state yields that same state. -/
theorem C8_disconnect_idempotent (st : ConnState) :
    disconnect st (.ok ()) (.ok ()) =
      .ok (⟨false, st.robot⟩,
        (if st.lease_keepalive then [CleanupEvent.lease_exit] else []) ++
          (if st.robot then [CleanupEvent.robot_shutdown] else [])) ∧
    disconnect ⟨false, st.robot⟩ (.ok ()) (.ok ()) =
      .ok (⟨false, st.robot⟩,
        if st.robot then [CleanupEvent.robot_shutdown] else []) := by
  rcases st with ⟨l, r⟩
  cases l <;> cases r <;> exact ⟨rfl, rfl⟩

/-- Counterexample to C10 as stated: when the primary authenticate call
raises InvalidLoginError — an exception raised by an underlying SDK call —
and the interactive fallback then succeeds, authenticate returns True, not
False (it still does not propagate). -/
theorem C10_counterexample :
    authenticate AuthOutcome.invalid_login (Except.ok ()) = true ∧
    ¬ authenticate AuthOutcome.invalid_login (Except.ok ()) = false := by
  exact ⟨rfl, by simp [authenticate]⟩

/-- C10 amended: every boolean-returning operation returns False rather than
propagating, for every exception raised by an underlying SDK call — except
that authenticate catches InvalidLoginError from its primary call and falls
back to interactive login (any other exception, or a failing fallback,
still yields False); verify_not_estopped, release_lease and disconnect
have no guard and propagate an error from their underlying calls. -/
theorem C10_exception_policy (e : PyErr) (x : Except PyErr Unit)
    (submit : PointCommand → Except PyErr Nat)
    (tsubmit : TrajectoryCommand → Except PyErr Nat)
    (T : ℚ × ℚ → ℚ × ℚ) (a : ℚ → ℚ → ℚ) (L t now : ℚ) (clock : ℕ → ℚ)
    (b : Bool) :
    connect (.error e) x = false ∧
    connect (.ok ()) (.error e) = false ∧
    authenticate (.other e) x = false ∧
    authenticate .invalid_login (.error e) = false ∧
    setup_clients (.error e) x x x = false ∧
    setup_clients (.ok ()) (.error e) x x = false ∧
    setup_clients (.ok ()) (.ok ()) (.error e) x = false ∧
    setup_clients (.ok ()) (.ok ()) (.ok ()) (.error e) = false ∧
    acquire_lease (.error e) = false ∧
    power_on (.error e) = false ∧
    time_sync (.error e) = false ∧
    stand_up (.error e) = false ∧
    walk_square_result (.error e) submit x a L t clock = false ∧
    walk_square_result (.ok T) (fun _ => .error e) x a L t clock = false ∧
    walk_square_result (.ok T) (fun _ => .ok 1) (.error e) a L t clock = false ∧
    walk_square_trajectory_result (.error e) tsubmit x a L t now = false ∧
    walk_square_trajectory_result (.ok T) (fun _ => .error e) x a L t now = false ∧
    walk_square_trajectory_result (.ok T) (fun _ => .ok 1) (.error e) a L t now = false ∧
    verify_not_estopped (.error e) = .error e ∧
    release_lease ⟨true, b⟩ (.error e) = .error e ∧
    disconnect ⟨true, b⟩ (.error e) x = .error e ∧
    disconnect ⟨false, true⟩ x (.error e) = .error e := by
  exact ⟨rfl, rfl, rfl, rfl, rfl, rfl, rfl, rfl, rfl, rfl, rfl, rfl, rfl, rfl, rfl,
    rfl, rfl, rfl, rfl, rfl, rfl, rfl⟩
